import Mathlib

/-!
Shallow embedding of the training-copilot proxy servers.

The repository contains five near-duplicate HTTP proxy servers in front of a
local Ollama backend.  This file embeds the request-forwarding and
health-aggregation logic of the four variants the claims refer to:

* src/server/proxy.py            (namespace Proxy)
* src/server/fix_proxy.py        (namespace FixProxy)
* src/server/training-copilot.py (namespace TrainingCopilot)
* src/server/ollama-proxy.py     (namespace OllamaProxy)

Conventions of the embedding:

* A JSON value is the inductive Json below; Python float constants that
  appear on the JSON wire (0.3, 0.9) are represented by the rationals they
  denote there.
* The Python json library is an external collaborator; handlers take a
  parse function of type JParse as a parameter, standing for json.loads.
* A backend interaction through urllib is summarised by UrlResult: success
  carries the bytes read from the response, httpError models a raised
  urllib.error.HTTPError (a subclass of URLError), urlError models a raised
  connection-level urllib.error.URLError.  For the aiohttp based variant,
  AioResult.ok carries the status and body of the backend response (aiohttp
  does not raise on non-2xx) and AioResult.connError models a raised
  client-connection error or timeout.
* A handler result is an HttpResponse (status, headers in send order, body)
  together with the list of payloads forwarded to the backend generate
  endpoint, in order, so that "no backend call" is the statement that this
  list is empty.
* Static HTML/JS page texts are abbreviated to short markers: only their
  status line and headers are part of the modelled surface.
-/

inductive Json where
  | null
  | bool (b : Bool)
  | num (q : Rat)
  | str (s : String)
  | arr (elems : List Json)
  | obj (fields : List (String × Json))

/-- Lookup of a key in the field list of a JSON object. -/
def jsonLookup : List (String × Json) → String → Option Json
  | [], _ => none
  | (k, v) :: rest, key => if k = key then some v else jsonLookup rest key

/-- Model of Python dict.get(key, default) on a parsed JSON value.  (On a
non-object the Python code would raise and fall into the enclosing generic
except handler; no claim exercises that path, the model returns the
default there.) -/
def Json.getD (j : Json) (key : String) (default : Json) : Json :=
  match j with
  | .obj fields => (jsonLookup fields key).getD default
  | _ => default

/-- Model of iterating over a JSON array (Python list). -/
def Json.asArr : Json → List Json
  | .arr xs => xs
  | _ => []

inductive Body where
  | empty
  | raw (s : String)
  | json (j : Json)

structure HttpResponse where
  status : Nat
  headers : List (String × String)
  body : Body

/-- Outcome of a urllib.request.urlopen call against the backend. -/
inductive UrlResult where
  | success (body : String)
  | httpError (code : Nat) (reason : String)
  | urlError (reason : String)

/-- Outcome of an aiohttp ClientSession request against the backend. -/
inductive AioResult where
  | ok (status : Nat) (body : String)
  | connError (reason : String)

/-- The json.loads collaborator: parse a request or response body. -/
abbrev JParse := String → Except String Json

/-- Response plus the payloads forwarded to the backend generate endpoint. -/
structure GenOutcome where
  resp : HttpResponse
  sent : List String

/-- Same, for the aiohttp variant, whose payload is built as a JSON object. -/
structure AioOutcome where
  resp : HttpResponse
  sent : List Json

inductive Method where
  | GET
  | POST
  | OPTIONS

def ctJson : String × String := ("Content-Type", "application/json")

def acao : String × String := ("Access-Control-Allow-Origin", "*")

namespace Proxy

/-- proxy.py line 12-13: fixed configuration constants. -/
def OLLAMA_URL : String := "http://localhost:11434"

/-- ProxyHandler.send_json (proxy.py lines 154-160). -/
def send_json (code : Nat) (data : Json) : HttpResponse :=
  { status := code
    headers := [ctJson, acao]
    body := .json data }

/-- ProxyHandler.send_error (proxy.py lines 162-172). -/
def send_error (code : Nat) (message : String) : HttpResponse :=
  { status := code
    headers := [ctJson, acao]
    body := .json (.obj [("error", .bool true), ("code", .num code), ("message", .str message)]) }

/-- Body of the degraded health answer (proxy.py lines 90-96); the error
field carries str(e) of the raised exception. -/
def degradedBody (errMsg : String) : Json :=
  .obj [("status", .str "degraded"),
        ("proxy", .str "http://localhost:3000"),
        ("ollama", .str "disconnected"),
        ("error", .str errMsg),
        ("tip", .str "Run \x27ollama serve\x27 in another terminal")]

/-- ProxyHandler.handle_health (proxy.py lines 69-97): GET {OLLAMA_URL}/api/tags
with timeout 2; every exception falls into the degraded 200 answer. -/
def handle_health (jparse : JParse) (tags : UrlResult) : HttpResponse :=
  match tags with
  | .success body =>
    match jparse body with
    | .ok data =>
      send_json 200 (.obj [("status", .str "healthy"),
                           ("proxy", .str "http://localhost:3000"),
                           ("ollama", .str "connected"),
                           ("models", .arr ((data.getD "models" (.arr [])).asArr.map
                              (fun m => m.getD "name" .null))),
                           ("ollama_url", .str OLLAMA_URL)])
    | .error e => send_json 200 (degradedBody e)
  | .httpError code reason =>
    send_json 200 (degradedBody ("HTTP Error " ++ toString code ++ ": " ++ reason))
  | .urlError reason =>
    send_json 200 (degradedBody ("<urlopen error " ++ reason ++ ">"))

/-- ProxyHandler.handle_root (proxy.py lines 47-67); page text abbreviated. -/
def handle_root : HttpResponse :=
  { status := 200
    headers := [("Content-Type", "text/html"), acao]
    body := .raw "<html>Training Copilot Proxy info page</html>" }

/-- ProxyHandler.do_OPTIONS (proxy.py lines 17-23). -/
def do_OPTIONS : HttpResponse :=
  { status := 200
    headers := [acao,
                ("Access-Control-Allow-Methods", "POST, GET, OPTIONS"),
                ("Access-Control-Allow-Headers", "Content-Type")]
    body := .empty }

/-- ProxyHandler.handle_generate (proxy.py lines 99-152).
clHeader models self.headers.get applied to the Content-Length name with
default 0; postData models the bytes read from rfile.  The forwarded
payload is post_data verbatim.  A raised HTTPError is caught by the
except-URLError branch, because HTTPError subclasses URLError, and its
reason attribute is the HTTP reason phrase; hence both backend error
shapes land in the 502 answer. -/
def handle_generate (jparse : JParse) (clHeader : Option Nat) (postData : String)
    (backend : UrlResult) : GenOutcome :=
  let content_length := clHeader.getD 0
  if content_length = 0 then
    ⟨send_error 400 "Empty request body", []⟩
  else
    match jparse postData with
    | .error e => ⟨send_error 400 ("Invalid JSON: " ++ e), []⟩
    | .ok request_json =>
      match backend with
      | .success respBody =>
        match jparse respBody with
        | .ok response_json =>
          ⟨send_json 200 (.obj [("success", .bool true),
                                ("response", response_json.getD "response" (.str "")),
                                ("model", request_json.getD "model" (.str "unknown")),
                                ("done", response_json.getD "done" (.bool true))]),
           [postData]⟩
        | .error e => ⟨send_error 500 ("Internal server error: " ++ e), [postData]⟩
      | .httpError _ reason => ⟨send_error 502 ("Cannot connect to Ollama: " ++ reason), [postData]⟩
      | .urlError reason => ⟨send_error 502 ("Cannot connect to Ollama: " ++ reason), [postData]⟩

/-- ProxyHandler.do_GET (proxy.py lines 25-36). -/
def do_GET (jparse : JParse) (path : String) (tags : UrlResult) : HttpResponse :=
  if path = "/health" then handle_health jparse tags
  else if path = "/" then handle_root
  else if path = "/api/generate" then send_error 405 "Method Not Allowed - Use POST"
  else send_error 404 ("Not Found: " ++ path)

/-- ProxyHandler.do_POST (proxy.py lines 38-45). -/
def do_POST (jparse : JParse) (path : String) (clHeader : Option Nat) (postData : String)
    (backend : UrlResult) : GenOutcome :=
  if path = "/api/generate" then handle_generate jparse clHeader postData backend
  else ⟨send_error 404 ("Not Found: " ++ path), []⟩

/-- The whole ProxyHandler dispatch surface: one inbound request of any
method, any path, any backend state, to one response. -/
def handle (jparse : JParse) (m : Method) (path : String) (clHeader : Option Nat)
    (postData : String) (tags backend : UrlResult) : GenOutcome :=
  match m with
  | .OPTIONS => ⟨do_OPTIONS, []⟩
  | .GET => ⟨do_GET jparse path tags, []⟩
  | .POST => do_POST jparse path clHeader postData backend

end Proxy

namespace FixProxy

/-- FixedProxyHandler.send_json (fix_proxy.py lines 135-141). -/
def send_json (code : Nat) (data : Json) : HttpResponse :=
  { status := code
    headers := [ctJson, acao]
    body := .json data }

/-- FixedProxyHandler.send_error (fix_proxy.py lines 143-154); unlike
proxy.py it appends a fixed fix hint field to every error body. -/
def send_error (code : Nat) (message : String) : HttpResponse :=
  { status := code
    headers := [ctJson, acao]
    body := .json (.obj [("error", .bool true), ("code", .num code), ("message", .str message),
                         ("fix", .str "Make sure you\x27re using POST method for /api/generate")]) }

/-- The inline 405 answer of FixedProxyHandler.do_GET for /api/generate
(fix_proxy.py lines 24-33): a literal three-field JSON error body. -/
def get_generate_405 : HttpResponse :=
  { status := 405
    headers := [ctJson, acao]
    body := .json (.obj [("error", .bool true), ("code", .num 405),
                         ("message", .str "GET method not allowed for /api/generate. Use POST.")]) }

/-- FixedProxyHandler.handle_health (fix_proxy.py lines 74-96). -/
def handle_health (jparse : JParse) (tags : UrlResult) : HttpResponse :=
  match tags with
  | .success body =>
    match jparse body with
    | .ok data =>
      send_json 200 (.obj [("status", .str "healthy"),
                           ("ollama", .str "connected"),
                           ("models", .arr ((data.getD "models" (.arr [])).asArr.map
                              (fun m => m.getD "name" .null))),
                           ("proxy_url", .str "http://localhost:3000"),
                           ("note", .str "/api/generate requires POST method")])
    | .error e =>
      send_json 200 (.obj [("status", .str "degraded"),
                           ("ollama", .str "disconnected"),
                           ("error", .str e),
                           ("tip", .str "Run \x27ollama serve\x27 in another terminal")])
  | .httpError code reason =>
    send_json 200 (.obj [("status", .str "degraded"),
                         ("ollama", .str "disconnected"),
                         ("error", .str ("HTTP Error " ++ toString code ++ ": " ++ reason)),
                         ("tip", .str "Run \x27ollama serve\x27 in another terminal")])
  | .urlError reason =>
    send_json 200 (.obj [("status", .str "degraded"),
                         ("ollama", .str "disconnected"),
                         ("error", .str ("<urlopen error " ++ reason ++ ">")),
                         ("tip", .str "Run \x27ollama serve\x27 in another terminal")])

/-- FixedProxyHandler.handle_root (fix_proxy.py lines 52-72); page text
abbreviated. -/
def handle_root : HttpResponse :=
  { status := 200
    headers := [("Content-Type", "text/html"), acao]
    body := .raw "<html>Training Copilot Proxy info page, POST reminder</html>" }

/-- FixedProxyHandler.do_GET (fix_proxy.py lines 17-35). -/
def do_GET (jparse : JParse) (path : String) (tags : UrlResult) : HttpResponse :=
  if path = "/health" then handle_health jparse tags
  else if path = "/" then handle_root
  else if path = "/api/generate" then get_generate_405
  else send_error 404 ("Not found: " ++ path)

/-- FixedProxyHandler.handle_generate (fix_proxy.py lines 98-133).
The body is never parsed: post_data is forwarded verbatim, and on backend
success the backend bytes are relayed verbatim.  A backend HTTPError of
code 405 gets the dedicated guidance message, any other code is
propagated; a connection-level URLError is not an HTTPError and falls to
the generic except branch as a 500, with str(e) of a URLError rendered as
its urlopen-error form. -/
def handle_generate (clHeader : Option Nat) (postData : String) (backend : UrlResult) :
    GenOutcome :=
  let content_length := clHeader.getD 0
  if content_length = 0 then
    ⟨send_error 400 "Empty request body", []⟩
  else
    match backend with
    | .success respBody =>
      ⟨{ status := 200, headers := [ctJson, acao], body := .raw respBody }, [postData]⟩
    | .httpError code reason =>
      if code = 405 then
        ⟨send_error 405 "Ollama: Method Not Allowed - Make sure you\x27re sending POST, not GET",
         [postData]⟩
      else
        ⟨send_error code ("Ollama error: " ++ reason), [postData]⟩
    | .urlError reason =>
      ⟨send_error 500 ("Proxy error: <urlopen error " ++ reason ++ ">"), [postData]⟩

/-- FixedProxyHandler.do_POST (fix_proxy.py lines 37-42). -/
def do_POST (path : String) (clHeader : Option Nat) (postData : String)
    (backend : UrlResult) : GenOutcome :=
  if path = "/api/generate" then handle_generate clHeader postData backend
  else ⟨send_error 404 ("Not found: " ++ path), []⟩

end FixProxy

namespace TrainingCopilot

/-- TrainingCopilotHandler.send_CORS_headers (training-copilot.py lines 61-64). -/
def corsHeaders : List (String × String) :=
  [("Access-Control-Allow-Origin", "*"),
   ("Access-Control-Allow-Methods", "GET, POST, OPTIONS"),
   ("Access-Control-Allow-Headers", "Content-Type")]

/-- TrainingCopilotHandler.check_ollama_status (training-copilot.py lines
252-260) reduced to the connectivity bit the callers test for: the status
string contains the connected marker exactly when the tags call succeeded
and its body parsed. -/
def check_ollama_connected (jparse : JParse) (tags : UrlResult) : Bool :=
  match tags with
  | .success body =>
    match jparse body with
    | .ok _ => true
    | .error _ => false
  | .httpError _ _ => false
  | .urlError _ => false

/-- TrainingCopilotHandler.serve_homepage (training-copilot.py lines 66-158):
a 200 text/html dashboard; note that no CORS headers are sent on this path.
Page text abbreviated. -/
def serve_homepage : HttpResponse :=
  { status := 200
    headers := [("Content-Type", "text/html")]
    body := .raw "<html>Training Copilot dashboard</html>" }

/-- TrainingCopilotHandler.serve_health_check (training-copilot.py lines
160-176); now models datetime.now().isoformat(). -/
def serve_health_check (jparse : JParse) (tags : UrlResult) (now : String) : HttpResponse :=
  { status := 200
    headers := ("Content-Type", "application/json") :: corsHeaders
    body := .json (.obj [("status", .str "running"),
                         ("server", .str "training-copilot"),
                         ("ollama", .str (if check_ollama_connected jparse tags
                                          then "connected" else "disconnected")),
                         ("timestamp", .str now),
                         ("port", .num 3000)]) }

/-- TrainingCopilotHandler.serve_bookmarklet (training-copilot.py lines
178-184); script text abbreviated. -/
def serve_bookmarklet : HttpResponse :=
  { status := 200
    headers := ("Content-Type", "application/javascript") :: corsHeaders
    body := .raw "javascript:bookmarklet" }

/-- TrainingCopilotHandler.get_ollama_models (training-copilot.py lines
186-203). -/
def get_ollama_models (jparse : JParse) (tags : UrlResult) : HttpResponse :=
  match tags with
  | .success body =>
    match jparse body with
    | .ok data =>
      { status := 200
        headers := ("Content-Type", "application/json") :: corsHeaders
        body := .json (.obj [("models", .arr ((data.getD "models" (.arr [])).asArr.map
                               (fun m => m.getD "name" (.str ""))))]) }
    | .error _ =>
      { status := 200
        headers := ("Content-Type", "application/json") :: corsHeaders
        body := .json (.obj [("models", .arr []), ("error", .str "Ollama not available")]) }
  | _ =>
    { status := 200
      headers := ("Content-Type", "application/json") :: corsHeaders
      body := .json (.obj [("models", .arr []), ("error", .str "Ollama not available")]) }

/-- TrainingCopilotHandler.do_GET (training-copilot.py lines 41-52).  The
else branch answers 404 with no headers and no body. -/
def do_GET (jparse : JParse) (path : String) (tags : UrlResult) (now : String) : HttpResponse :=
  if path = "/" then serve_homepage
  else if path = "/health" then serve_health_check jparse tags now
  else if path = "/bookmarklet" then serve_bookmarklet
  else if path = "/api/models" then get_ollama_models jparse tags
  else { status := 404, headers := [], body := .empty }

/-- TrainingCopilotHandler.forward_to_ollama (training-copilot.py lines
205-250).  The very first statement evaluates int of the raw
Content-Length header value; with the header absent, the mapping access
yields None and int raises a TypeError outside the try block, which no
handler catches: Except.error models that uncaught exception.  Otherwise
the body is forwarded verbatim; the backend answer is parsed, then
post_data is parsed again for the model echo; a URLError (which also
catches HTTPError, its subclass) is answered 500, as is any other
exception. -/
def forward_to_ollama (jparse : JParse) (clHeader : Option Nat) (postData : String)
    (backend : UrlResult) : Except String GenOutcome :=
  match clHeader with
  | none => .error "TypeError"
  | some _content_length =>
    .ok <|
      match backend with
      | .success respBody =>
        match jparse respBody with
        | .ok ollama_response =>
          match jparse postData with
          | .ok req =>
            ⟨{ status := 200
               headers := ("Content-Type", "application/json") :: corsHeaders
               body := .json (.obj [("success", .bool true),
                                    ("response", ollama_response.getD "response" (.str "")),
                                    ("model", req.getD "model" (.str "unknown"))]) },
             [postData]⟩
          | .error e =>
            ⟨{ status := 500
               headers := ("Content-Type", "application/json") :: corsHeaders
               body := .json (.obj [("success", .bool false),
                                    ("error", .str ("Internal error: " ++ e))]) },
             [postData]⟩
        | .error e =>
          ⟨{ status := 500
             headers := ("Content-Type", "application/json") :: corsHeaders
             body := .json (.obj [("success", .bool false),
                                  ("error", .str ("Internal error: " ++ e))]) },
           [postData]⟩
      | .httpError _ reason =>
        ⟨{ status := 500
           headers := ("Content-Type", "application/json") :: corsHeaders
           body := .json (.obj [("success", .bool false),
                                ("error", .str ("Cannot connect to Ollama: " ++ reason))]) },
         [postData]⟩
      | .urlError reason =>
        ⟨{ status := 500
           headers := ("Content-Type", "application/json") :: corsHeaders
           body := .json (.obj [("success", .bool false),
                                ("error", .str ("Cannot connect to Ollama: " ++ reason))]) },
         [postData]⟩

/-- TrainingCopilotHandler.do_POST (training-copilot.py lines 54-59). -/
def do_POST (jparse : JParse) (path : String) (clHeader : Option Nat) (postData : String)
    (backend : UrlResult) : Except String GenOutcome :=
  if path = "/api/generate" then forward_to_ollama jparse clHeader postData backend
  else .ok ⟨{ status := 404, headers := [], body := .empty }, []⟩

end TrainingCopilot

namespace OllamaProxy

/-- The outbound payload built by generate_completion (ollama-proxy.py
lines 46-55): stream is hard-wired to false and the generic max_tokens
field is translated to the native num_predict option; the float constants
0.3 and 0.9 are the rationals they denote on the JSON wire. -/
def ollama_payload (data : Json) : Json :=
  .obj [("model", data.getD "model" (.str "llama2")),
        ("prompt", data.getD "prompt" (.str "")),
        ("stream", .bool false),
        ("options", .obj [("num_predict", data.getD "max_tokens" (.num 500)),
                          ("temperature", .num (3 / 10)),
                          ("top_p", .num (9 / 10))])]

/-- generate_completion (ollama-proxy.py lines 31-95).  request.json()
failing raises json.JSONDecodeError, answered 400 before any backend call;
a backend non-200 status is answered 500 with the status number embedded
in the message; on 200 the backend body is parsed and repackaged; the
best-effort audit append of log_interaction has no caller-visible effect
and is not part of the response.  A connection-level failure raises inside
the session and is caught by the generic except branch as a 500. -/
def generate_completion (jparse : JParse) (reqBody : String) (backend : AioResult) :
    AioOutcome :=
  match jparse reqBody with
  | .error e =>
    ⟨{ status := 400
       headers := [ctJson]
       body := .json (.obj [("error", .str "Invalid JSON"), ("details", .str e)]) },
     []⟩
  | .ok data =>
    match backend with
    | .ok status respBody =>
      if status ≠ 200 then
        ⟨{ status := 500
           headers := [ctJson]
           body := .json (.obj [("error", .str ("Ollama returned " ++ toString status))]) },
         [ollama_payload data]⟩
      else
        match jparse respBody with
        | .ok result =>
          ⟨{ status := 200
             headers := [ctJson]
             body := .json (.obj [("success", .bool true),
                                  ("response", result.getD "response" (.str "")),
                                  ("model", data.getD "model" (.str "llama2")),
                                  ("tokens", result.getD "eval_count" (.num 0))]) },
           [ollama_payload data]⟩
        | .error e =>
          ⟨{ status := 500
             headers := [ctJson]
             body := .json (.obj [("error", .str "Internal server error"),
                                  ("details", .str e)]) },
           [ollama_payload data]⟩
    | .connError reason =>
      ⟨{ status := 500
         headers := [ctJson]
         body := .json (.obj [("error", .str "Internal server error"),
                              ("details", .str reason)]) },
       [ollama_payload data]⟩

/-- health_check (ollama-proxy.py lines 119-137): a backend reply of any
status is answered 200 with healthy or degraded, but a raised exception
(timeout, connection failure) falls into the bare except branch, answered
503 with status unhealthy. -/
def health_check (tags : AioResult) (now : String) : HttpResponse :=
  match tags with
  | .ok status _ =>
    { status := 200
      headers := [ctJson]
      body := .json (.obj [("status", .str (if status = 200 then "healthy" else "degraded")),
                           ("ollama", .str (if status = 200 then "connected" else "disconnected")),
                           ("timestamp", .str now),
                           ("server", .str "training-copilot-proxy")]) }
  | .connError _ =>
    { status := 503
      headers := [ctJson]
      body := .json (.obj [("status", .str "unhealthy"),
                           ("ollama", .str "disconnected"),
                           ("timestamp", .str now)]) }

end OllamaProxy

/-- C1 (amended): every response emitted by proxy.py, for any method, path,
backend state and outcome, carries the header Access-Control-Allow-Origin: *. -/
theorem c1_proxy_every_response_has_cors (jparse : JParse) (m : Method) (path : String)
    (clHeader : Option Nat) (postData : String) (tags backend : UrlResult) :
    ("Access-Control-Allow-Origin", "*") ∈
      (Proxy.handle jparse m path clHeader postData tags backend).resp.headers := by
  have hjson : ∀ c d, ("Access-Control-Allow-Origin", "*") ∈ (Proxy.send_json c d).headers := by
    intro c d
    simp [Proxy.send_json, acao]
  have herr : ∀ c s, ("Access-Control-Allow-Origin", "*") ∈ (Proxy.send_error c s).headers := by
    intro c s
    simp [Proxy.send_error, acao]
  cases m <;> cases tags <;> cases backend <;>
    simp only [Proxy.handle, Proxy.do_GET, Proxy.do_POST, Proxy.do_OPTIONS,
      Proxy.handle_health, Proxy.handle_root, Proxy.handle_generate]
  all_goals repeat' split
  all_goals first
    | apply hjson
    | apply herr
    | simp [acao]

/-- C1 counterexample: training-copilot.py answers GET on an unknown path
with a 404 that carries no headers at all, in particular no
Access-Control-Allow-Origin. -/
theorem c1_tc_404_missing_cors :
    ("Access-Control-Allow-Origin", "*") ∉
      (TrainingCopilot.do_GET (fun _ => Except.error "e") "/nope" (.urlError "down")
        "2026-10-12T00:00:00").headers := by
  decide

/-- C2 (amended): proxy.py answers every GET /health with HTTP 200; a
connection-level backend failure is reported as data, with the degraded
body whose status field is the string degraded. -/
theorem c2_proxy_health_always_200 (jparse : JParse) (tags : UrlResult) :
    (Proxy.handle_health jparse tags).status = 200 ∧
    (∀ r, (Proxy.handle_health jparse (.urlError r)).body =
      Body.json (Proxy.degradedBody ("<urlopen error " ++ r ++ ">"))) ∧
    (∀ e, (Proxy.degradedBody e).getD "status" .null = .str "degraded") := by
  refine ⟨?_, fun r => rfl, fun e => rfl⟩
  cases tags with
  | success b => cases h : jparse b <;> simp [Proxy.handle_health, h, Proxy.send_json]
  | httpError c r => rfl
  | urlError r => rfl

/-- C2 counterexample: ollama-proxy.py answers GET /health with HTTP 503
and body status unhealthy when the backend model-listing call fails at the
connection level, not with 200 and status degraded. -/
theorem c2_ollama_health_503_on_conn_error :
    (OllamaProxy.health_check (.connError "Cannot connect to host localhost:11434")
      "2026-10-12T00:00:00").status = 503 ∧
    (OllamaProxy.health_check (.connError "Cannot connect to host localhost:11434")
      "2026-10-12T00:00:00").body =
      Body.json (.obj [("status", .str "unhealthy"),
                       ("ollama", .str "disconnected"),
                       ("timestamp", .str "2026-10-12T00:00:00")]) :=
  ⟨rfl, rfl⟩

/-- C3 (amended): in proxy.py and fix_proxy.py, a POST /api/generate whose
Content-Length is 0 or absent is answered 400 with no payload forwarded to
the backend. -/
theorem c3_empty_body_400_no_forward (jparse : JParse) (postData : String)
    (backend : UrlResult) :
    ((Proxy.do_POST jparse "/api/generate" (some 0) postData backend).resp.status = 400 ∧
     (Proxy.do_POST jparse "/api/generate" (some 0) postData backend).sent = []) ∧
    ((Proxy.do_POST jparse "/api/generate" none postData backend).resp.status = 400 ∧
     (Proxy.do_POST jparse "/api/generate" none postData backend).sent = []) ∧
    ((FixProxy.do_POST "/api/generate" (some 0) postData backend).resp.status = 400 ∧
     (FixProxy.do_POST "/api/generate" (some 0) postData backend).sent = []) ∧
    ((FixProxy.do_POST "/api/generate" none postData backend).resp.status = 400 ∧
     (FixProxy.do_POST "/api/generate" none postData backend).sent = []) :=
  ⟨⟨rfl, rfl⟩, ⟨rfl, rfl⟩, ⟨rfl, rfl⟩, ⟨rfl, rfl⟩⟩

/-- C3 counterexample: training-copilot.py performs no emptiness check and
forwards the zero-length body to the backend: its list of forwarded
payloads is the empty string, not the empty list. -/
theorem c3_tc_forwards_empty_body :
    Except.map (fun o => o.sent)
      (TrainingCopilot.forward_to_ollama (fun _ => Except.error "Expecting value")
        (some 0) "" (.urlError "refused")) = Except.ok [""] := rfl

/-- C4 (amended): proxy.py answers a non-empty, syntactically invalid JSON
body with HTTP 400, a message carrying the parser error detail, and no
backend call. -/
theorem c4_invalid_json_400_no_backend_call (jparse : JParse) (n : Nat) (postData e : String)
    (backend : UrlResult) (h : jparse postData = Except.error e) :
    Proxy.do_POST jparse "/api/generate" (some (n + 1)) postData backend =
      ⟨Proxy.send_error 400 ("Invalid JSON: " ++ e), []⟩ := by
  simp [Proxy.do_POST, Proxy.handle_generate, h]

/-- C4 witness: the invalid body of the spec scenario, with the backend
down, is answered 400 with the parser detail and an empty forward list. -/
theorem c4_witness :
    (fun _ => Except.error "Expecting value: line 1 column 10 (char 9)" : JParse)
        "\x7b\"model\":" = Except.error "Expecting value: line 1 column 10 (char 9)" ∧
    Proxy.do_POST (fun _ => Except.error "Expecting value: line 1 column 10 (char 9)")
        "/api/generate" (some 9) "\x7b\"model\":" (.urlError "refused") =
      ⟨Proxy.send_error 400 ("Invalid JSON: " ++ "Expecting value: line 1 column 10 (char 9)"),
       []⟩ :=
  ⟨rfl, c4_invalid_json_400_no_backend_call _ 8 _ _ _ rfl⟩

/-- C4 counterexample: fix_proxy.py never parses the body; the invalid
body of the scenario is forwarded verbatim to the backend, so a backend
call is made. -/
theorem c4_fixproxy_forwards_invalid_json :
    (FixProxy.handle_generate (some 9) "\x7b\"model\":" (.urlError "refused")).sent =
      ["\x7b\"model\":"] := rfl

/-- C5 (amended): proxy.py and fix_proxy.py answer GET /api/generate with
HTTP 405 and a JSON error body telling the caller to use POST, whatever
the backend state; the answer is a constant, so no backend call can
influence it. -/
theorem c5_get_generate_405 (jparse : JParse) (tags : UrlResult) :
    Proxy.do_GET jparse "/api/generate" tags =
      Proxy.send_error 405 "Method Not Allowed - Use POST" ∧
    FixProxy.do_GET jparse "/api/generate" tags = FixProxy.get_generate_405 :=
  ⟨rfl, rfl⟩

/-- C5 counterexample: training-copilot.py routes no GET for
/api/generate; the request falls into the default branch and is answered
404 with an empty body, not 405. -/
theorem c5_tc_get_generate_404 :
    TrainingCopilot.do_GET (fun _ => Except.error "e") "/api/generate" (.urlError "down")
      "2026-10-12T00:00:00" = { status := 404, headers := [], body := .empty } := rfl

/-- C6 (amended): for every accepted generation request, ollama-proxy.py
issues exactly one backend call, and the payload of that call has stream
set to false, whatever streaming value the caller supplied. -/
theorem c6_ollama_single_call_stream_false (jparse : JParse) (reqBody : String) (data : Json)
    (backend : AioResult) (h : jparse reqBody = Except.ok data) :
    (OllamaProxy.generate_completion jparse reqBody backend).sent =
      [OllamaProxy.ollama_payload data] ∧
    (OllamaProxy.ollama_payload data).getD "stream" .null = .bool false := by
  refine ⟨?_, rfl⟩
  cases backend with
  | ok status respBody =>
    by_cases hs : status = 200
    · subst hs
      cases h2 : jparse respBody <;> simp [OllamaProxy.generate_completion, h, h2]
    · simp [OllamaProxy.generate_completion, h, hs]
  | connError r => simp [OllamaProxy.generate_completion, h]

/-- A caller document that itself asks for streaming; used to witness C6. -/
def c6Caller : Json :=
  Json.obj [("model", Json.str "llama2"), ("prompt", Json.str "Hi"), ("stream", Json.bool true)]

/-- C6 witness: a caller body parsed to an object with stream true still
produces exactly one backend call whose payload has stream false. -/
theorem c6_witness :
    (fun _ => Except.ok c6Caller : JParse) "x" = Except.ok c6Caller ∧
    ((OllamaProxy.generate_completion (fun _ => Except.ok c6Caller) "x"
        (.ok 200 "y")).sent = [OllamaProxy.ollama_payload c6Caller] ∧
     (OllamaProxy.ollama_payload c6Caller).getD "stream" .null = .bool false) :=
  ⟨rfl, c6_ollama_single_call_stream_false _ _ _ _ rfl⟩

/-- The raw caller body used in the C6 counterexample, carrying a caller
supplied stream true. -/
def c6Body : String := "\x7b\"model\": \"llama2\", \"prompt\": \"Hi\", \"stream\": true\x7d"

/-- C6 counterexample: proxy.py forwards the caller body verbatim, so the
payload of its single backend call is the raw caller document that has
stream set to true, not a payload with stream forced to false. -/
theorem c6_proxy_forwards_stream_verbatim :
    (Proxy.handle_generate (fun _ => Except.ok c6Caller) (some 48) c6Body
      (.success "\x7b\"response\": \"ok\", \"done\": true\x7d")).sent = [c6Body] := rfl

/-- The scenario request body of C7. -/
def c7ReqBody : String := "\x7b\"model\":\"llama2\",\"prompt\":\"Hello\",\"stream\":false\x7d"

/-- The parsed scenario request of C7. -/
def c7ReqJson : Json :=
  Json.obj [("model", Json.str "llama2"), ("prompt", Json.str "Hello"),
            ("stream", Json.bool false)]

/-- The scenario backend reply body of C7. -/
def c7RespBody : String := "\x7b\"response\":\"Hi there\",\"done\":true,\"eval_count\":3\x7d"

/-- The parsed scenario backend reply of C7. -/
def c7RespJson : Json :=
  Json.obj [("response", Json.str "Hi there"), ("done", Json.bool true),
            ("eval_count", Json.num 3)]

/-- The json.loads collaborator on the two documents of the C7 scenario. -/
def c7Parse : JParse := fun s =>
  if s = c7ReqBody then .ok c7ReqJson
  else if s = c7RespBody then .ok c7RespJson
  else .error "Expecting value: line 1 column 1 (char 0)"

/-- C7 (amended): on the scenario input and backend reply, ollama-proxy.py
answers HTTP 200 with exactly the body success true, response Hi there,
model llama2, tokens 3, after one backend call. -/
theorem c7_ollama_scenario_exact_response :
    OllamaProxy.generate_completion c7Parse c7ReqBody (.ok 200 c7RespBody) =
      ⟨{ status := 200
         headers := [ctJson]
         body := .json (.obj [("success", .bool true), ("response", .str "Hi there"),
                              ("model", .str "llama2"), ("tokens", .num 3)]) },
       [OllamaProxy.ollama_payload c7ReqJson]⟩ := rfl

/-- C7 counterexample: on the very same scenario, proxy.py answers with a
done field and no tokens field at all. -/
theorem c7_proxy_scenario_done_not_tokens :
    (Proxy.handle_generate c7Parse (some 47) c7ReqBody (.success c7RespBody)).resp =
      Proxy.send_json 200 (.obj [("success", .bool true), ("response", .str "Hi there"),
        ("model", .str "llama2"), ("done", .bool true)]) ∧
    jsonLookup [("success", Json.bool true), ("response", Json.str "Hi there"),
        ("model", Json.str "llama2"), ("done", Json.bool true)] "tokens" = none :=
  ⟨rfl, rfl⟩

/-- C8 (amended): fix_proxy.py surfaces a backend 405 as its own 405 whose
message carries the method guidance, while a backend 500 is propagated
with an Ollama error message; the two messages can never coincide. -/
theorem c8_fixproxy_405_distinct_guidance (n : Nat) (postData r r2 : String) :
    (FixProxy.handle_generate (some (n + 1)) postData (.httpError 405 r)).resp =
      FixProxy.send_error 405
        "Ollama: Method Not Allowed - Make sure you\x27re sending POST, not GET" ∧
    (FixProxy.handle_generate (some (n + 1)) postData (.httpError 500 r2)).resp =
      FixProxy.send_error 500 ("Ollama error: " ++ r2) ∧
    "Ollama: Method Not Allowed - Make sure you\x27re sending POST, not GET" ≠
      "Ollama error: " ++ r2 := by
  refine ⟨rfl, rfl, ?_⟩
  obtain ⟨l⟩ := r2
  intro hEq
  have h2 : ("Ollama: Method Not Allowed - Make sure you\x27re sending POST, not GET").data.take 14 =
      ("Ollama error: ".data ++ l).take 14 := congrArg (fun s => s.data.take 14) hEq
  rw [show (14 : Nat) = "Ollama error: ".data.length from rfl, List.take_left] at h2
  exact absurd h2 (by decide)

/-- C8 counterexample: ollama-proxy.py flattens a backend 405 into a
generic HTTP 500 whose body is just the backend status number, with no
method guidance. -/
theorem c8_ollama_flattens_405_to_500 :
    OllamaProxy.generate_completion
        (fun _ => Except.ok (Json.obj [("model", Json.str "llama2"),
          ("prompt", Json.str "Hello")]))
        "req" (.ok 405 "err") =
      ⟨{ status := 500
         headers := [ctJson]
         body := .json (.obj [("error", .str "Ollama returned 405")]) },
       [OllamaProxy.ollama_payload (Json.obj [("model", Json.str "llama2"),
         ("prompt", Json.str "Hello")])]⟩ := rfl

/-- C9 (amended): proxy.py answers a connection-level backend failure
during generation with HTTP 502 and the single JSON error object built by
send_error, after its one backend attempt. -/
theorem c9_proxy_unreachable_502_json (jparse : JParse) (n : Nat) (postData r : String)
    (data : Json) (h : jparse postData = Except.ok data) :
    Proxy.do_POST jparse "/api/generate" (some (n + 1)) postData (.urlError r) =
      ⟨Proxy.send_error 502 ("Cannot connect to Ollama: " ++ r), [postData]⟩ := by
  simp [Proxy.do_POST, Proxy.handle_generate, h]

/-- C9 witness: a concrete valid body against a refused connection is
answered 502 with the single JSON error body. -/
theorem c9_witness :
    (fun _ => Except.ok (Json.obj [("model", Json.str "llama2")]) : JParse)
        "\x7b\"model\": \"llama2\"\x7d" = Except.ok (Json.obj [("model", Json.str "llama2")]) ∧
    Proxy.do_POST (fun _ => Except.ok (Json.obj [("model", Json.str "llama2")]))
        "/api/generate" (some 19) "\x7b\"model\": \"llama2\"\x7d" (.urlError "Connection refused") =
      ⟨Proxy.send_error 502 ("Cannot connect to Ollama: " ++ "Connection refused"),
       ["\x7b\"model\": \"llama2\"\x7d"]⟩ :=
  ⟨rfl, c9_proxy_unreachable_502_json _ 18 _ _ _ rfl⟩

/-- C9 counterexample: training-copilot.py answers the same connection
refusal with HTTP 500, not 502. -/
theorem c9_tc_unreachable_500 :
    Except.map (fun o => o.resp.status)
      (TrainingCopilot.forward_to_ollama
        (fun _ => Except.ok (Json.obj [("model", Json.str "llama2")]))
        (some 19) "\x7b\"model\": \"llama2\"\x7d" (.urlError "Connection refused")) =
      Except.ok 500 := rfl

/-- C10: with the Content-Length header absent, proxy.py and fix_proxy.py
treat the length as 0 and answer 400 without a backend call, but
training-copilot.py evaluates int of the absent header value and dies with
an uncaught TypeError, sending no response at all. -/
theorem c10_missing_content_length :
    TrainingCopilot.forward_to_ollama (fun _ => Except.error "Expecting value") none "body"
        (.urlError "refused") = Except.error "TypeError" ∧
    Proxy.do_POST (fun _ => Except.error "Expecting value") "/api/generate" none "body"
        (.urlError "refused") = ⟨Proxy.send_error 400 "Empty request body", []⟩ ∧
    FixProxy.do_POST "/api/generate" none "body" (.urlError "refused") =
      ⟨FixProxy.send_error 400 "Empty request body", []⟩ :=
  ⟨rfl, rfl, rfl⟩
